import Mathlib

/-!
Verification development for the Simple-Feats timestamp bot (src/main.py).

The file embeds, as executable Lean definitions, the parts of src/main.py that
the specification talks about: the preference store (MongoDB collections
`user_settings` and `guild_settings`), the two timezone-setting slash commands,
and the `/timestamp` command (timezone resolution, the six-format strptime
loop, pytz localization with `is_dst=None`, and markup rendering).  The pytz
timezone database is an external library; it is modelled abstractly by a
`TzDB` parameter, and a concrete database `tzdb` covering the zones exercised
by the concrete theorems (UTC and America/New_York) is provided.
-/

namespace SimpleFeats

/-- Naive (timezone-less) wall-clock date and time with minute precision, as
produced by `datetime.datetime.strptime` for the six formats in src/main.py
(all six carry exactly year, month, day, hour and minute fields). -/
structure NaiveDateTime where
  year : Nat
  month : Nat
  day : Nat
  hour : Nat
  minute : Nat
deriving DecidableEq, Repr

/-- Decimal digit test on a character, matching the regex class backslash-d
used by CPython strptime for ASCII input. -/
def isDigit (c : Char) : Bool :=
  decide (48 ≤ c.toNat) && decide (c.toNat ≤ 57)

/-- Numeric value of a decimal digit character. -/
def dval (c : Char) : Nat := c.toNat - 48

/-- Whitespace test matching the regex class backslash-s for ASCII input
(CPython strptime replaces whitespace in the format by that class). -/
def isSpace (c : Char) : Bool :=
  decide (c = ' ') || decide (c = '\t') || decide (c = '\n') ||
  decide (c = '\x0b') || decide (c = '\x0c') || decide (c = '\r')

/-- Sequence two nondeterministic parsers: every alternative of the first is
continued by the second, preserving the regex backtracking order. -/
def bindP {α β : Type} (xs : List (α × List Char))
    (f : α → List Char → List (β × List Char)) : List (β × List Char) :=
  xs.flatMap fun p => f p.1 p.2

/-- Alternatives, in regex-alternation order, for a numeric strptime directive
whose regex is (two-digit branches)|(one-digit branch): two-digit matches
satisfying `twoOk` come first, the one-digit match satisfying `oneOk` after,
exactly as in CPython strptime regexes such as 3[01]|[12]d|0[1-9]|[1-9]. -/
def twoOneAlts (twoOk oneOk : Nat → Bool) : List Char → List (Nat × List Char)
  | c1 :: c2 :: rest =>
    (if isDigit c1 && isDigit c2 && twoOk (10 * dval c1 + dval c2) then
      [(10 * dval c1 + dval c2, rest)]
    else []) ++
    (if isDigit c1 && oneOk (dval c1) then [(dval c1, c2 :: rest)] else [])
  | [c1] => if isDigit c1 && oneOk (dval c1) then [(dval c1, [])] else []
  | [] => []

/-- CPython strptime directive %d (day), regex 3[01]|[12]d|0[1-9]|[1-9]. -/
def altsD : List Char → List (Nat × List Char) :=
  twoOneAlts (fun v => decide (1 ≤ v) && decide (v ≤ 31)) (fun v => decide (1 ≤ v))

/-- CPython strptime directive %m (month), regex 1[0-2]|0[1-9]|[1-9]. -/
def altsM : List Char → List (Nat × List Char) :=
  twoOneAlts (fun v => decide (1 ≤ v) && decide (v ≤ 12)) (fun v => decide (1 ≤ v))

/-- CPython strptime directive %I (12-hour clock hour), same regex as %m. -/
def altsI : List Char → List (Nat × List Char) := altsM

/-- CPython strptime directive %H (24-hour clock hour), regex 2[0-3]|[0-1]d|d. -/
def altsH : List Char → List (Nat × List Char) :=
  twoOneAlts (fun v => decide (v ≤ 23)) (fun _ => true)

/-- CPython strptime directive %M (minute), regex [0-5]d|d. -/
def altsMin : List Char → List (Nat × List Char) :=
  twoOneAlts (fun v => decide (v ≤ 59)) (fun _ => true)

/-- CPython strptime directive %Y (year), regex of exactly four digits. -/
def altsY : List Char → List (Nat × List Char)
  | c1 :: c2 :: c3 :: c4 :: rest =>
    if isDigit c1 && isDigit c2 && isDigit c3 && isDigit c4 then
      [(1000 * dval c1 + 100 * dval c2 + 10 * dval c3 + dval c4, rest)]
    else []
  | _ => []

/-- CPython strptime directive %p (meridiem), regex am|pm compiled with
IGNORECASE; the value is whether the match was the pm branch. -/
def altsP : List Char → List (Bool × List Char)
  | c1 :: c2 :: rest =>
    if (decide (c1 = 'a') || decide (c1 = 'A')) &&
        (decide (c2 = 'm') || decide (c2 = 'M')) then [(false, rest)]
    else if (decide (c1 = 'p') || decide (c1 = 'P')) &&
        (decide (c2 = 'm') || decide (c2 = 'M')) then [(true, rest)]
    else []
  | _ => []

/-- Literal character in a strptime format (the separators - and : here). -/
def litP (c : Char) : List Char → List (Unit × List Char)
  | d :: rest => if d = c then [((), rest)] else []
  | [] => []

/-- Whitespace in a strptime format, compiled by CPython to backslash-s+:
greedy, so longer matches come first in backtracking order. -/
def wsAlts : List Char → List (Unit × List Char)
  | c :: rest => if isSpace c then wsAlts rest ++ [((), rest)] else []
  | [] => []

/-- Date part %Y-%m-%d of formats 1 and 4, yielding (year, month, day). -/
def runYmd (s : List Char) : List ((Nat × Nat × Nat) × List Char) :=
  bindP (altsY s) fun y r1 =>
  bindP (litP '-' r1) fun _ r2 =>
  bindP (altsM r2) fun mo r3 =>
  bindP (litP '-' r3) fun _ r4 =>
  bindP (altsD r4) fun d r5 => [((y, mo, d), r5)]

/-- Date part %d-%m-%Y of formats 2 and 5, yielding (year, month, day). -/
def runDmy (s : List Char) : List ((Nat × Nat × Nat) × List Char) :=
  bindP (altsD s) fun d r1 =>
  bindP (litP '-' r1) fun _ r2 =>
  bindP (altsM r2) fun mo r3 =>
  bindP (litP '-' r3) fun _ r4 =>
  bindP (altsY r4) fun y r5 => [((y, mo, d), r5)]

/-- Date part %m-%d-%Y of formats 3 and 6, yielding (year, month, day). -/
def runMdy (s : List Char) : List ((Nat × Nat × Nat) × List Char) :=
  bindP (altsM s) fun mo r1 =>
  bindP (litP '-' r1) fun _ r2 =>
  bindP (altsD r2) fun d r3 =>
  bindP (litP '-' r3) fun _ r4 =>
  bindP (altsY r4) fun y r5 => [((y, mo, d), r5)]

/-- Time part %H:%M of the three 24-hour formats, yielding (hour, minute). -/
def runHM (s : List Char) : List ((Nat × Nat) × List Char) :=
  bindP (altsH s) fun h r1 =>
  bindP (litP ':' r1) fun _ r2 =>
  bindP (altsMin r2) fun mi r3 => [((h, mi), r3)]

/-- Time part %I:%M%p of the three 12-hour formats, yielding the 24-hour
(hour, minute) after CPython strptime meridiem conversion: pm adds 12 except
to 12, am maps 12 to 0. -/
def runIMp (s : List Char) : List ((Nat × Nat) × List Char) :=
  bindP (altsI s) fun i r1 =>
  bindP (litP ':' r1) fun _ r2 =>
  bindP (altsMin r2) fun mi r3 =>
  bindP (altsP r3) fun pm r4 =>
    [(((if pm then (if i = 12 then 12 else i + 12)
        else (if i = 12 then 0 else i)), mi), r4)]

/-- Gregorian leap-year test, as in Python datetime. -/
def isLeapYear (y : Nat) : Bool :=
  decide (y % 4 = 0) && (decide (y % 100 ≠ 0) || decide (y % 400 = 0))

/-- Length of a month, as validated by the Python datetime constructor. -/
def daysInMonth (y m : Nat) : Nat :=
  if m = 2 then (if isLeapYear y then 29 else 28)
  else if m = 4 ∨ m = 6 ∨ m = 9 ∨ m = 11 then 30
  else 31

/-- Calendar validation performed by the datetime constructor after the regex
match: `datetime.datetime.strptime` raises ValueError (and the format loop in
src/main.py lines 257-262 moves on) when the matched day does not exist in the
matched month, or the year is below MINYEAR = 1. -/
def mkNaive (y mo d h mi : Nat) : Option NaiveDateTime :=
  if 1 ≤ y ∧ 1 ≤ d ∧ d ≤ daysInMonth y mo then some ⟨y, mo, d, h, mi⟩ else none

/-- Run one full format: date part, whitespace, time part, in CPython regex
backtracking order. CPython strptime takes the first match of the unanchored
regex and then raises unless it consumed the whole input, so the result is the
head of this list checked for an empty remainder, then calendar-validated. -/
def strptimeWith (dateP : List Char → List ((Nat × Nat × Nat) × List Char))
    (timeP : List Char → List ((Nat × Nat) × List Char))
    (s : String) : Option NaiveDateTime :=
  let parses :=
    bindP (dateP s.data) fun ymd r1 =>
    bindP (wsAlts r1) fun _ r2 =>
    bindP (timeP r2) fun hm r3 => [((ymd, hm), r3)]
  match parses.head? with
  | some (((y, mo, d), (h, mi)), rest) =>
    if rest = [] then mkNaive y mo d h mi else none
  | none => none

/-- Format 1 of src/main.py line 248: %Y-%m-%d %H:%M. -/
def strptimeIso24 : String → Option NaiveDateTime := strptimeWith runYmd runHM

/-- Format 2 of src/main.py line 249: %d-%m-%Y %H:%M. -/
def strptimeEur24 : String → Option NaiveDateTime := strptimeWith runDmy runHM

/-- Format 3 of src/main.py line 250: %m-%d-%Y %H:%M. -/
def strptimeUsa24 : String → Option NaiveDateTime := strptimeWith runMdy runHM

/-- Format 4 of src/main.py line 252: %Y-%m-%d %I:%M%p. -/
def strptimeIso12 : String → Option NaiveDateTime := strptimeWith runYmd runIMp

/-- Format 5 of src/main.py line 253: %d-%m-%Y %I:%M%p. -/
def strptimeEur12 : String → Option NaiveDateTime := strptimeWith runDmy runIMp

/-- Format 6 of src/main.py line 254: %m-%d-%Y %I:%M%p. -/
def strptimeUsa12 : String → Option NaiveDateTime := strptimeWith runMdy runIMp

/-- The format strings of the `formats_to_try` list, src/main.py lines 247-255. -/
def formats_to_try : List String :=
  ["%Y-%m-%d %H:%M", "%d-%m-%Y %H:%M", "%m-%d-%Y %H:%M",
   "%Y-%m-%d %I:%M%p", "%d-%m-%Y %I:%M%p", "%m-%d-%Y %I:%M%p"]

/-- The parser of the k-th entry (1-based) of `formats_to_try`. -/
def applyFormat : Nat → String → Option NaiveDateTime
  | 1, s => strptimeIso24 s
  | 2, s => strptimeEur24 s
  | 3, s => strptimeUsa24 s
  | 4, s => strptimeIso12 s
  | 5, s => strptimeEur12 s
  | 6, s => strptimeUsa12 s
  | _, _ => none

/-- The format-probing loop of src/main.py lines 257-262: the formats are
tried in list order and the first that parses wins; the result records the
1-based index of the winning format. -/
def matchedFormat (s : String) : Option (Nat × NaiveDateTime) :=
  match strptimeIso24 s with
  | some dt => some (1, dt)
  | none =>
    match strptimeEur24 s with
    | some dt => some (2, dt)
    | none =>
      match strptimeUsa24 s with
      | some dt => some (3, dt)
      | none =>
        match strptimeIso12 s with
        | some dt => some (4, dt)
        | none =>
          match strptimeEur12 s with
          | some dt => some (5, dt)
          | none =>
            match strptimeUsa12 s with
            | some dt => some (6, dt)
            | none => none

/-- The `dt_object` produced by the format-probing loop (none when every
format failed, src/main.py line 264). -/
def tryFormats (s : String) : Option NaiveDateTime :=
  (matchedFormat s).map Prod.snd

/-- Days from 1970-01-01 to the given proleptic-Gregorian civil date
(Hinnant's days_from_civil, as computed by Python datetime toordinal up to
the epoch shift). -/
def daysFromCivil (y m d : Nat) : Int :=
  let yAdj := if m ≤ 2 then y - 1 else y
  let era := yAdj / 400
  let yoe := yAdj % 400
  let mp := (m + 9) % 12
  let doy := (153 * mp + 2) / 5 + (d - 1)
  let doe := yoe * 365 + yoe / 4 - yoe / 100 + doy
  (↑(era * 146097 + doe) : Int) - 719468

/-- Seconds from 1970-01-01T00:00:00 to the given naive date-time read as if
it were UTC (the wall-clock epoch). -/
def wallEpoch (t : NaiveDateTime) : Int :=
  daysFromCivil t.year t.month t.day * 86400 +
    (t.hour : Int) * 3600 + (t.minute : Int) * 60

/-- Day of week (0 = Sunday) of a civil date on or after 1970-01-01
(1970-01-01 was a Thursday). -/
def dayOfWeek (y m d : Nat) : Nat :=
  ((daysFromCivil y m d).toNat + 4) % 7

/-- Day of month of the n-th Sunday of the given month. -/
def nthSunday (y m n : Nat) : Nat :=
  1 + (7 - dayOfWeek y m 1) % 7 + 7 * (n - 1)

/-- Failure of pytz localize with is_dst=None: AmbiguousTimeError for a
repeated wall-clock time, NonExistentTimeError for a skipped one. -/
inductive LocalizeError where
  | ambiguous
  | nonexistent
deriving DecidableEq, Repr

/-- A timezone as used by src/main.py: pytz localize with is_dst=None
followed by conversion to UTC and truncation to whole epoch seconds
(lines 273-277), fused into one map from naive wall time to epoch seconds. -/
structure Zone where
  localize : NaiveDateTime → Except LocalizeError Int

/-- The pytz zone database as accessed through pytz.timezone: a name either
resolves to a zone or raises UnknownTimeZoneError (here: none). -/
structure TzDB where
  lookup : String → Option Zone

/-- pytz.utc: fixed offset zero, localize never fails. -/
def utcZone : Zone := ⟨fun t => .ok (wallEpoch t)⟩

/-- America/New_York under pytz for the current (2007 onwards) US DST rule:
EST = UTC-5, EDT = UTC-4 from the second Sunday of March 02:00 wall time to
the first Sunday of November 02:00 EDT; with is_dst=None, wall times in the
skipped spring hour raise NonExistentTimeError and wall times in the repeated
autumn hour raise AmbiguousTimeError. -/
def nyLocalize (t : NaiveDateTime) : Except LocalizeError Int :=
  let w := wallEpoch t
  let springGap := wallEpoch ⟨t.year, 3, nthSunday t.year 3 2, 2, 0⟩
  let autumnRep := wallEpoch ⟨t.year, 11, nthSunday t.year 11 1, 1, 0⟩
  if w < springGap then .ok (w + 18000)
  else if w < springGap + 3600 then .error .nonexistent
  else if w < autumnRep then .ok (w + 14400)
  else if w < autumnRep + 3600 then .error .ambiguous
  else .ok (w + 18000)

/-- The America/New_York zone. -/
def nyZone : Zone := ⟨nyLocalize⟩

/-- Concrete zone database covering the identifiers exercised by the concrete
theorems of this file; every other name is unknown (pytz raises
UnknownTimeZoneError). General theorems quantify over an arbitrary TzDB. -/
def tzdb : TzDB :=
  ⟨fun s =>
    if s = "UTC" then some utcZone
    else if s = "America/New_York" then some nyZone
    else none⟩

/-- The preference store: the `user_settings` collection keyed by user id
with field `timezone`, and the `guild_settings` collection keyed by guild id
with field `default_timezone` (src/main.py lines 27-29, 60-61). A missing
record and a record missing the field behave identically in src/main.py
(both guards at lines 222 and 229 fail), so they are identified here. -/
structure Store where
  userSettings : Nat → Option String
  guildSettings : Nat → Option String

/-- The user-settings read `settings_collection.find_one({"_id": id})` plus
the `"timezone"` field access (src/main.py lines 221-223). -/
def getUserTimezone (st : Store) (u : Nat) : Option String :=
  st.userSettings u

/-- The guild-settings read `guild_settings_collection.find_one` plus the
`"default_timezone"` field access (src/main.py lines 228-230). -/
def getServerTimezone (st : Store) (g : Nat) : Option String :=
  st.guildSettings g

/-- Outcome of a timezone-setting slash command (src/main.py lines 139-194):
the success confirmation, the invalid-timezone error message, or the
guild-only refusal of /set_server_timezone, each carrying the data
interpolated into the message it answers with. -/
inductive SetResult where
  | success (tz : String)
  | invalidTimezone (tz : String)
  | serverOnly (msg : String)
deriving DecidableEq, Repr

/-- /set_my_timezone (src/main.py lines 137-162): validate the name with
pytz.timezone, answer the error message and write nothing when it is unknown,
otherwise upsert {"_id": user, "timezone": tz} into user_settings. -/
def set_user_timezone (db : TzDB) (st : Store) (u : Nat) (tz : String) :
    SetResult × Store :=
  match db.lookup tz with
  | none => (.invalidTimezone tz, st)
  | some _ =>
    (.success tz,
      { st with userSettings := fun id => if id = u then some tz else st.userSettings id })

/-- /set_server_timezone (src/main.py lines 164-194): refuse outside a guild
(lines 168-170, before any validation), then validate the name and write
nothing when it is unknown, otherwise upsert
{"_id": guild, "default_timezone": tz} into guild_settings. -/
def set_server_timezone (db : TzDB) (st : Store) (guildId : Option Nat)
    (tz : String) : SetResult × Store :=
  match guildId with
  | none => (.serverOnly "This command can only be used in a server.", st)
  | some g =>
    match db.lookup tz with
    | none => (.invalidTimezone tz, st)
    | some _ =>
      (.success tz,
        { st with guildSettings := fun id => if id = g then some tz else st.guildSettings id })

/-- Which branch of the timezone-priority block of src/main.py lines 218-237
chose the effective timezone. -/
inductive TzSource where
  | explicitArg
  | userDefault
  | serverDefault
  | utcFallback
deriving DecidableEq, Repr

/-- The timezone-priority block of src/main.py lines 218-237. The Python test
`if not timezone` is true for None and for the empty string, so both are
embedded as the no-argument case. -/
def resolve_timezone (st : Store) (userId : Nat) (guildId : Option Nat)
    (timezone : Option String) : String × TzSource :=
  if timezone = none ∨ timezone = some "" then
    match getUserTimezone st userId with
    | some utz => (utz, .userDefault)
    | none =>
      match guildId with
      | some gid =>
        match getServerTimezone st gid with
        | some gtz => (gtz, .serverDefault)
        | none => ("UTC", .utcFallback)
      | none => ("UTC", .utcFallback)
  else (timezone.getD "", .explicitArg)

/-- A choice of the format_style option, as registered in FORMAT_OPTIONS
(src/main.py lines 67-75). -/
structure Choice where
  choiceName : String
  value : String
deriving DecidableEq, Repr

/-- FORMAT_OPTIONS of src/main.py lines 67-75: the seven display styles. -/
def FORMAT_OPTIONS : List Choice :=
  [⟨"Short Time (16:20)", "t"⟩,
   ⟨"Long Time (16:20:30)", "T"⟩,
   ⟨"Short Date (20/04/2021)", "d"⟩,
   ⟨"Long Date (20 April 2021)", "D"⟩,
   ⟨"Default Date/Time (20 April 2021 16:20)", "f"⟩,
   ⟨"Full Date/Time (Tuesday, 20 April 2021 16:20)", "F"⟩,
   ⟨"Relative Time (2 months ago)", "R"⟩]

/-- The style code: `format_style.value if format_style else 'F'`
(src/main.py line 278). -/
def styleOf : Option Choice → String
  | some c => c.value
  | none => "F"

/-- The three format patterns spelled out in the parse-failure message of
src/main.py lines 266-269 ("Please use a format like `YYYY-MM-DD HH:MM`,
`DD-MM-YYYY HH:MM`, or `MM-DD-YYYY HH:MM`"). -/
def SUGGESTED_FORMATS : List String :=
  ["YYYY-MM-DD HH:MM", "DD-MM-YYYY HH:MM", "MM-DD-YYYY HH:MM"]

/-- Outcome of the /timestamp command (src/main.py lines 199-310): either the
embed carrying the markup, epoch, style, effective timezone and its source, or
one of the three failure replies: the unknown-timezone message (line 302), the
parse-failure message carrying the raw input and its format suggestions
(lines 264-270), or the generic catch-all reply of lines 307-310 (which is
what an exception from pytz localize lands in). -/
inductive TsResult where
  | success (markup : String) (epoch : Int) (style : String)
      (tzName : String) (source : TzSource)
  | invalidTimezone (tzName : String)
  | unparseable (raw : String) (suggestedFormats : List String)
  | genericError
deriving DecidableEq, Repr

/-- The /timestamp command body (src/main.py lines 206-310): resolve the
timezone by priority, validate it with pytz.timezone, probe the six formats,
localize with is_dst=None and convert to epoch seconds, then render
`<t:{unix_timestamp}:{style}>`. -/
def generate_timestamp (db : TzDB) (st : Store) (userId : Nat)
    (guildId : Option Nat) (date_time : String) (timezone : Option String)
    (format_style : Option Choice) : TsResult :=
  match db.lookup (resolve_timezone st userId guildId timezone).1 with
  | none => .invalidTimezone (resolve_timezone st userId guildId timezone).1
  | some tz =>
    match tryFormats date_time with
    | none => .unparseable date_time SUGGESTED_FORMATS
    | some dt =>
      match tz.localize dt with
      | .error _ => .genericError
      | .ok epoch =>
        .success ("<t:" ++ toString epoch ++ ":" ++ styleOf format_style ++ ">")
          epoch (styleOf format_style)
          (resolve_timezone st userId guildId timezone).1
          (resolve_timezone st userId guildId timezone).2

/-- A store with no records at all. -/
def emptyStore : Store := ⟨fun _ => none, fun _ => none⟩

/-- A store where user 1 has personal timezone America/New_York. -/
def storeUserNY : Store :=
  ⟨fun id => if id = 1 then some "America/New_York" else none, fun _ => none⟩

/-- A store where only guild 5 has a default timezone. -/
def storeGuildNY : Store :=
  ⟨fun _ => none, fun g => if g = 5 then some "America/New_York" else none⟩

/-- Helper: with a non-empty explicit timezone argument, the priority block of
src/main.py lines 218-237 returns that argument without touching the store. -/
theorem resolve_timezone_of_explicit (st : Store) (u : Nat) (g : Option Nat)
    (e : String) (he : e ≠ "") :
    resolve_timezone st u g (some e) = (e, TzSource.explicitArg) := by
  simp [resolve_timezone, he]

/-- Claim C1: timezone resolution follows the precedence explicit argument >
user default > server default > UTC: a (non-empty) explicit argument is used;
otherwise a stored personal zone; otherwise, in a server context, a stored
server zone; otherwise UTC. -/
theorem C1_timezone_resolution_precedence (st : Store) (u : Nat)
    (g : Option Nat) :
    (∀ e : String, e ≠ "" →
      resolve_timezone st u g (some e) = (e, TzSource.explicitArg))
    ∧ (∀ p, getUserTimezone st u = some p →
        resolve_timezone st u g none = (p, TzSource.userDefault))
    ∧ (∀ gid sv, g = some gid → getUserTimezone st u = none →
        getServerTimezone st gid = some sv →
        resolve_timezone st u g none = (sv, TzSource.serverDefault))
    ∧ (∀ gid, g = some gid → getUserTimezone st u = none →
        getServerTimezone st gid = none →
        resolve_timezone st u g none = ("UTC", TzSource.utcFallback))
    ∧ (g = none → getUserTimezone st u = none →
        resolve_timezone st u g none = ("UTC", TzSource.utcFallback)) := by
  refine ⟨fun e he => resolve_timezone_of_explicit st u g e he,
    fun p hp => by simp [resolve_timezone, hp],
    fun gid sv hg hu hs => by subst hg; simp [resolve_timezone, hu, hs],
    fun gid hg hu hs => by subst hg; simp [resolve_timezone, hu, hs],
    fun hg hu => by subst hg; simp [resolve_timezone, hu]⟩

/-- Witness for C1: the four precedence outcomes at concrete stores. -/
theorem C1_timezone_resolution_precedence_witness :
    resolve_timezone storeUserNY 1 (some 5) (some "UTC")
      = ("UTC", TzSource.explicitArg)
    ∧ resolve_timezone storeUserNY 1 (some 5) none
      = ("America/New_York", TzSource.userDefault)
    ∧ resolve_timezone storeGuildNY 1 (some 5) none
      = ("America/New_York", TzSource.serverDefault)
    ∧ resolve_timezone emptyStore 1 (some 5) none
      = ("UTC", TzSource.utcFallback)
    ∧ resolve_timezone emptyStore 1 none none
      = ("UTC", TzSource.utcFallback) :=
  ⟨(C1_timezone_resolution_precedence storeUserNY 1 (some 5)).1 "UTC"
      (by decide),
    (C1_timezone_resolution_precedence storeUserNY 1 (some 5)).2.1
      "America/New_York" rfl,
    (C1_timezone_resolution_precedence storeGuildNY 1 (some 5)).2.2.1 5
      "America/New_York" rfl rfl rfl,
    (C1_timezone_resolution_precedence emptyStore 1 (some 5)).2.2.2.1 5
      rfl rfl rfl,
    (C1_timezone_resolution_precedence emptyStore 1 none).2.2.2.2 rfl rfl⟩

/-- Claim C2, counterexample: at the wall-clock time 01:30 of 2 November 2025
in America/New_York — which is ambiguous (the autumn fall-back repeats the
hour 01:00-01:59) — the /timestamp command does NOT return a rendered
timestamp: pytz localize with is_dst=None raises AmbiguousTimeError, the
catch-all of src/main.py lines 307-310 swallows it, and the caller gets the
generic error reply. -/
theorem C2_dst_ambiguity_counterexample :
    generate_timestamp tzdb emptyStore 1 none "02-11-2025 01:30"
      (some "America/New_York") none = TsResult.genericError := by
  rfl

/-- Claim C2 as amended: for every request whose parsed wall-clock time is
ambiguous or non-existent in the (valid) effective timezone, localization
with is_dst=None raises, and the operation reports the generic error to the
caller instead of returning a rendered timestamp. -/
theorem C2_dst_ambiguity_amended (db : TzDB) (st : Store) (u : Nat)
    (g : Option Nat) (raw : String) (tzArg : Option String)
    (fs : Option Choice) (dt : NaiveDateTime) (z : Zone) (err : LocalizeError)
    (hz : db.lookup (resolve_timezone st u g tzArg).1 = some z)
    (hp : tryFormats raw = some dt)
    (hl : z.localize dt = Except.error err) :
    generate_timestamp db st u g raw tzArg fs = TsResult.genericError := by
  unfold generate_timestamp
  simp only [hz, hp, hl]

/-- Witness for the amended C2 at the concrete ambiguous instant. -/
theorem C2_dst_ambiguity_amended_witness :
    tryFormats "02-11-2025 01:30" = some ⟨2025, 11, 2, 1, 30⟩
    ∧ nyZone.localize ⟨2025, 11, 2, 1, 30⟩
        = Except.error LocalizeError.ambiguous
    ∧ generate_timestamp tzdb emptyStore 1 none "02-11-2025 01:30"
        (some "America/New_York") none = TsResult.genericError :=
  ⟨rfl, rfl,
    C2_dst_ambiguity_amended tzdb emptyStore 1 none "02-11-2025 01:30"
      (some "America/New_York") none ⟨2025, 11, 2, 1, 30⟩ nyZone
      LocalizeError.ambiguous rfl rfl rfl⟩

/-- Claim C3: the six formats are tried in the fixed order ISO 24h, European
24h, American 24h, ISO 12h, European 12h, American 12h, and the first that
parses wins; "2025-12-31 23:59" parses via format 1, "31-12-2025 23:59" via
format 2, and "12-31-2025 11:59PM" via format 6. -/
theorem C3_format_order :
    (∀ s i dt, matchedFormat s = some (i, dt) →
      applyFormat i s = some dt ∧ ∀ j, 1 ≤ j → j < i → applyFormat j s = none)
    ∧ matchedFormat "2025-12-31 23:59" = some (1, ⟨2025, 12, 31, 23, 59⟩)
    ∧ matchedFormat "31-12-2025 23:59" = some (2, ⟨2025, 12, 31, 23, 59⟩)
    ∧ matchedFormat "12-31-2025 11:59PM" = some (6, ⟨2025, 12, 31, 23, 59⟩)
    ∧ formats_to_try.length = 6 := by
  refine ⟨?_, rfl, rfl, rfl, rfl⟩
  intro s i dt h
  unfold matchedFormat at h
  cases h1 : strptimeIso24 s with
  | some d1 =>
    rw [h1] at h
    obtain ⟨hi, hdt⟩ : 1 = i ∧ d1 = dt := by simpa using h
    subst hi; subst hdt
    exact ⟨h1, fun j hj1 hj2 => absurd hj2 (by omega)⟩
  | none =>
    rw [h1] at h
    cases h2 : strptimeEur24 s with
    | some d2 =>
      rw [h2] at h
      obtain ⟨hi, hdt⟩ : 2 = i ∧ d2 = dt := by simpa using h
      subst hi; subst hdt
      refine ⟨h2, fun j hj1 hj2 => ?_⟩
      interval_cases j
      · exact h1
    | none =>
      rw [h2] at h
      cases h3 : strptimeUsa24 s with
      | some d3 =>
        rw [h3] at h
        obtain ⟨hi, hdt⟩ : 3 = i ∧ d3 = dt := by simpa using h
        subst hi; subst hdt
        refine ⟨h3, fun j hj1 hj2 => ?_⟩
        interval_cases j
        · exact h1
        · exact h2
      | none =>
        rw [h3] at h
        cases h4 : strptimeIso12 s with
        | some d4 =>
          rw [h4] at h
          obtain ⟨hi, hdt⟩ : 4 = i ∧ d4 = dt := by simpa using h
          subst hi; subst hdt
          refine ⟨h4, fun j hj1 hj2 => ?_⟩
          interval_cases j
          · exact h1
          · exact h2
          · exact h3
        | none =>
          rw [h4] at h
          cases h5 : strptimeEur12 s with
          | some d5 =>
            rw [h5] at h
            obtain ⟨hi, hdt⟩ : 5 = i ∧ d5 = dt := by simpa using h
            subst hi; subst hdt
            refine ⟨h5, fun j hj1 hj2 => ?_⟩
            interval_cases j
            · exact h1
            · exact h2
            · exact h3
            · exact h4
          | none =>
            rw [h5] at h
            cases h6 : strptimeUsa12 s with
            | some d6 =>
              rw [h6] at h
              obtain ⟨hi, hdt⟩ : 6 = i ∧ d6 = dt := by simpa using h
              subst hi; subst hdt
              refine ⟨h6, fun j hj1 hj2 => ?_⟩
              interval_cases j
              · exact h1
              · exact h2
              · exact h3
              · exact h4
              · exact h5
            | none =>
              rw [h6] at h
              exact absurd h (by simp)

/-- Witness for C3: format 6 parses the American 12-hour input that the
earlier formats reject. -/
theorem C3_format_order_witness :
    applyFormat 6 "12-31-2025 11:59PM" = some ⟨2025, 12, 31, 23, 59⟩
    ∧ applyFormat 1 "12-31-2025 11:59PM" = none :=
  have h := C3_format_order.1 "12-31-2025 11:59PM" 6 ⟨2025, 12, 31, 23, 59⟩
    C3_format_order.2.2.2.1
  ⟨h.1, h.2 1 (by decide) (by decide)⟩

/-- Claim C4: with stored personal zone America/New_York, no explicit zone
and no server default, timestamp of "2025-07-04 12:00" resolves from the user
default to epoch 1751644800, which is 2025-07-04T16:00:00Z (EDT, UTC-4); and
with nothing stored in a DM, timestamp of "2025-01-01 00:00" resolves via the
UTC fallback to epoch 1735689600, which is 2025-01-01T00:00:00Z. -/
theorem C4_default_timezone_scenarios :
    generate_timestamp tzdb storeUserNY 1 none "2025-07-04 12:00" none none
      = TsResult.success "<t:1751644800:F>" 1751644800 "F" "America/New_York"
          TzSource.userDefault
    ∧ utcZone.localize ⟨2025, 7, 4, 16, 0⟩ = Except.ok 1751644800
    ∧ generate_timestamp tzdb emptyStore 1 none "2025-01-01 00:00" none none
      = TsResult.success "<t:1735689600:F>" 1735689600 "F" "UTC"
          TzSource.utcFallback
    ∧ utcZone.localize ⟨2025, 1, 1, 0, 0⟩ = Except.ok 1735689600 :=
  ⟨rfl, rfl, rfl, rfl⟩

/-- Claim C5, counterexample: "next tuesday" matches no format and the
command answers the parse-failure message, which carries the original input
but suggests only the three 24-hour formats — not all 6 attempted formats. -/
theorem C5_unparseable_counterexample :
    generate_timestamp tzdb emptyStore 1 none "next tuesday" none none
      = TsResult.unparseable "next tuesday" SUGGESTED_FORMATS
    ∧ SUGGESTED_FORMATS.length = 3
    ∧ formats_to_try.length = 6 :=
  ⟨rfl, rfl, rfl⟩

/-- Claim C5 as amended: for every input that no format matches (given a
valid effective timezone, which src/main.py checks first), the command fails
with the parse-failure reply carrying the original input string, but the
reply lists only the three 24-hour format patterns, not all 6 attempted
formats. -/
theorem C5_unparseable_amended (db : TzDB) (st : Store) (u : Nat)
    (g : Option Nat) (raw : String) (tzArg : Option String)
    (fs : Option Choice) (z : Zone)
    (hz : db.lookup (resolve_timezone st u g tzArg).1 = some z)
    (hp : tryFormats raw = none) :
    generate_timestamp db st u g raw tzArg fs
      = TsResult.unparseable raw SUGGESTED_FORMATS := by
  unfold generate_timestamp
  rw [hz, hp]

/-- Witness for the amended C5 at the concrete unparseable input. -/
theorem C5_unparseable_amended_witness :
    tryFormats "next tuesday" = none
    ∧ generate_timestamp tzdb emptyStore 1 none "next tuesday" none none
      = TsResult.unparseable "next tuesday" SUGGESTED_FORMATS :=
  ⟨rfl, C5_unparseable_amended tzdb emptyStore 1 none "next tuesday" none
    none utcZone rfl rfl⟩

/-- Claim C6: for every zone name unknown to the zone database, both setting
commands answer the invalid-timezone error and leave the store untouched —
validation happens before any write. -/
theorem C6_invalid_timezone_no_write (db : TzDB) (st : Store) (u gid : Nat)
    (z : String) (h : db.lookup z = none) :
    set_user_timezone db st u z = (SetResult.invalidTimezone z, st)
    ∧ set_server_timezone db st (some gid) z
      = (SetResult.invalidTimezone z, st) := by
  constructor
  · unfold set_user_timezone
    rw [h]
  · unfold set_server_timezone
    rw [h]

/-- Witness for C6 at a concrete unknown zone name. -/
theorem C6_invalid_timezone_no_write_witness :
    set_user_timezone tzdb emptyStore 1 "Not/A_Zone"
      = (SetResult.invalidTimezone "Not/A_Zone", emptyStore)
    ∧ set_server_timezone tzdb emptyStore (some 5) "Not/A_Zone"
      = (SetResult.invalidTimezone "Not/A_Zone", emptyStore) :=
  C6_invalid_timezone_no_write tzdb emptyStore 1 5 "Not/A_Zone" rfl

/-- Claim C7: every successful /timestamp reply renders markup of the exact
shape <t:{epochSeconds}:{styleCode}>, the style code is one of the seven
codes t, T, d, D, f, F, R registered in FORMAT_OPTIONS, and when no style is
supplied the default is F. -/
theorem C7_markup_shape (db : TzDB) (st : Store) (u : Nat) (g : Option Nat)
    (raw : String) (tzArg : Option String) (fs : Option Choice)
    (m : String) (ep : Int) (style tzn : String) (src : TzSource)
    (hfs : ∀ c, fs = some c → c ∈ FORMAT_OPTIONS)
    (h : generate_timestamp db st u g raw tzArg fs
        = TsResult.success m ep style tzn src) :
    m = "<t:" ++ toString ep ++ ":" ++ style ++ ">"
    ∧ style ∈ ["t", "T", "d", "D", "f", "F", "R"]
    ∧ (fs = none → style = "F") := by
  unfold generate_timestamp at h
  split at h
  · exact TsResult.noConfusion h
  · split at h
    · exact TsResult.noConfusion h
    · split at h
      · exact TsResult.noConfusion h
      · injection h with h1 h2 h3 h4 h5
        subst h1; subst h2; subst h3
        refine ⟨rfl, ?_, ?_⟩
        · cases fs with
          | none => decide
          | some c =>
            have hc := hfs c rfl
            fin_cases hc <;> decide
        · intro hn
          subst hn
          rfl

/-- Witness for C7 on a concrete successful run with the default style. -/
theorem C7_markup_shape_witness :
    "<t:1735689600:F>" = "<t:" ++ toString (1735689600 : Int) ++ ":" ++ "F" ++ ">"
    ∧ ("F" : String) ∈ ["t", "T", "d", "D", "f", "F", "R"] :=
  have h := C7_markup_shape tzdb emptyStore 1 none "2025-01-01 00:00" none
    none "<t:1735689600:F>" 1735689600 "F" "UTC" TzSource.utcFallback
    (fun _ hc => Option.noConfusion hc) rfl
  ⟨h.1, h.2.1⟩

/-- Claim C8: for every valid zone name, setting a user's timezone and then
reading it back returns that zone, repeating the write returns the same reply,
and the repeated write leaves every stored value unchanged (idempotent
upsert). -/
theorem C8_set_then_get_roundtrip (db : TzDB) (st : Store) (u : Nat)
    (z : String) (zo : Zone) (h : db.lookup z = some zo) :
    getUserTimezone (set_user_timezone db st u z).2 u = some z
    ∧ (set_user_timezone db (set_user_timezone db st u z).2 u z).1
        = (set_user_timezone db st u z).1
    ∧ ∀ v, getUserTimezone
          (set_user_timezone db (set_user_timezone db st u z).2 u z).2 v
        = getUserTimezone (set_user_timezone db st u z).2 v := by
  unfold set_user_timezone
  rw [h]
  refine ⟨by simp [getUserTimezone], rfl, ?_⟩
  intro v
  by_cases hv : v = u <;> simp [getUserTimezone, hv]

/-- Witness for C8 at a concrete valid zone name. -/
theorem C8_set_then_get_roundtrip_witness :
    getUserTimezone (set_user_timezone tzdb emptyStore 1 "America/New_York").2 1
      = some "America/New_York"
    ∧ getUserTimezone
        (set_user_timezone tzdb
          (set_user_timezone tzdb emptyStore 1 "America/New_York").2 1
          "America/New_York").2 2
      = getUserTimezone
          (set_user_timezone tzdb emptyStore 1 "America/New_York").2 2 :=
  have h := C8_set_then_get_roundtrip tzdb emptyStore 1 "America/New_York"
    nyZone rfl
  ⟨h.1, h.2.2 2⟩

/-- Claim C9: with a (non-empty) explicit timezone argument the /timestamp
command never reads the preference store, so two runs that differ only in the
store contents produce identical results. -/
theorem C9_explicit_tz_noninterference (db : TzDB) (st1 st2 : Store)
    (u : Nat) (g : Option Nat) (raw : String) (e : String)
    (fs : Option Choice) (he : e ≠ "") :
    generate_timestamp db st1 u g raw (some e) fs
      = generate_timestamp db st2 u g raw (some e) fs := by
  unfold generate_timestamp
  rw [resolve_timezone_of_explicit st1 u g e he,
    resolve_timezone_of_explicit st2 u g e he]

/-- Witness for C9: two stores with different user settings give the same
reply under an explicit timezone argument. -/
theorem C9_explicit_tz_noninterference_witness :
    generate_timestamp tzdb storeUserNY 1 none "2025-01-01 00:00" (some "UTC")
        none
      = generate_timestamp tzdb emptyStore 1 none "2025-01-01 00:00"
        (some "UTC") none :=
  C9_explicit_tz_noninterference tzdb storeUserNY emptyStore 1 none
    "2025-01-01 00:00" "UTC" none (by decide)

/-- Claim C10: invoked without a guild id (a DM), /set_server_timezone always
answers that it can only be used in a server — before any timezone
validation, the zone name being arbitrary here — and writes nothing. -/
theorem C10_server_only_outside_guild (db : TzDB) (st : Store) (z : String) :
    set_server_timezone db st none z
      = (SetResult.serverOnly "This command can only be used in a server.",
          st) :=
  rfl

end SimpleFeats
